import Mathlib

/-!
Verification development for the `nsh` relay node.

The embedding follows the three source files of the repository:
`src/processor.rs` (the command `Processor`, a `Delegate`),
`src/server.rs` (the reactor `Server` handler and its `Action` queue) and
`src/xk.rs` (secure-session construction).  External collaborators
(the reactor runtime, the TCP stack, the noise library, the shell) appear
as explicit inputs: every fallible or effectful external call is an oracle
argument whose outcome the theorems quantify over.
-/

namespace Nsh

/-- Raw OS file descriptor (`RawFd`). -/
abbrev RawFd := Nat

/-- Stable resource identity assigned by the reactor (`ResourceId`). -/
abbrev ResourceId := Nat

/-- Byte strings (`Vec<u8>`); each entry stands for one byte value. -/
abbrev Bytes := List Nat

/-- Ed25519 public key, abstract (`ed25519::PublicKey`). -/
abbrev PubKey := Nat

/-- Ed25519 private key, abstract (`ed25519::PrivateKey`). -/
abbrev PrivKey := Nat

/-- Certificate over the signing identity, abstract (`Cert<ed25519::Signature>`). -/
abbrev Cert := Nat

/-- Network address of an inet host, abstract (`NetAddr<InetHost>`). -/
abbrev NetAddrInet := Nat

/-- Network address of a (possibly named) host, abstract (`NetAddr<HostName>`). -/
abbrev NetAddrHost := Nat

/-- Raw TCP stream, abstract (`net::TcpStream`). -/
abbrev TcpStream := Nat

/-- Listener socket resource, abstract (`NetAccept<Session, Socket>`). -/
abbrev Listener := Nat

/-! ### Association-list model of `std::collections::HashMap`

The source uses `HashMap<RawFd, _>`; we model it as an association list
with at most one binding per key, with `insert` replacing any previous
binding, matching `HashMap::insert` / `remove` / `get` semantics. -/

/-- Lookup in the association-list map (`HashMap::get`). -/
def mapLookup {α : Type} (m : List (Nat × α)) (k : Nat) : Option α :=
  match m with
  | [] => none
  | (k', v) :: rest => if k' = k then some v else mapLookup rest k

/-- Remove a key from the association-list map (`HashMap::remove`, result map). -/
def mapErase {α : Type} (m : List (Nat × α)) (k : Nat) : List (Nat × α) :=
  match m with
  | [] => []
  | (k', v) :: rest => if k' = k then mapErase rest k else (k', v) :: mapErase rest k

/-- Insert a binding, replacing any previous one (`HashMap::insert`). -/
def mapInsert {α : Type} (m : List (Nat × α)) (k : Nat) (v : α) : List (Nat × α) :=
  (k, v) :: mapErase m k

theorem mapLookup_mapInsert_self {α : Type} (m : List (Nat × α)) (k : Nat) (v : α) :
    mapLookup (mapInsert m k v) k = some v := by
  simp [mapInsert, mapLookup]

theorem mapLookup_mapErase_self {α : Type} (m : List (Nat × α)) (k : Nat) :
    mapLookup (mapErase m k) k = none := by
  induction m with
  | nil => simp [mapErase, mapLookup]
  | cons hd tl ih =>
    obtain ⟨k', v⟩ := hd
    by_cases h : k' = k <;> simp [mapErase, mapLookup, h, ih]

/-! ### UTF-8 encoding and decoding

`String::from_utf8` and `str::as_bytes` from the Rust standard library
are modelled by an explicit UTF-8 codec over `Bytes` (strict UTF-8:
continuation ranges, no overlong forms, no surrogates, max U+10FFFF). -/

/-- Encode one Unicode scalar value as UTF-8 bytes. -/
def utf8EncodeCp (c : Nat) : List Nat :=
  if c < 0x80 then [c]
  else if c < 0x800 then [0xC0 + c / 0x40, 0x80 + c % 0x40]
  else if c < 0x10000 then
    [0xE0 + c / 0x1000, 0x80 + c / 0x40 % 0x40, 0x80 + c % 0x40]
  else
    [0xF0 + c / 0x40000, 0x80 + c / 0x1000 % 0x40, 0x80 + c / 0x40 % 0x40, 0x80 + c % 0x40]

/-- UTF-8 bytes of a string (`str::as_bytes` on Rust's `String`). -/
def strBytes (s : String) : Bytes :=
  (s.data.map Char.toNat).flatMap utf8EncodeCp

/-- Decide whether a byte is a UTF-8 continuation byte. -/
def isCont (b : Nat) : Bool := 0x80 ≤ b && b < 0xC0

/-- Decode a strict UTF-8 byte sequence into Unicode scalar values,
failing on any ill-formed input (`String::from_utf8`, codepoint level). -/
def utf8Decode : Bytes → Option (List Nat)
  | [] => some []
  | b0 :: rest =>
    if b0 < 0x80 then
      (utf8Decode rest).map (fun cs => b0 :: cs)
    else if b0 < 0xC2 then none
    else if b0 < 0xE0 then
      match rest with
      | b1 :: rest1 =>
        if isCont b1 then
          (utf8Decode rest1).map (fun cs => ((b0 - 0xC0) * 0x40 + (b1 - 0x80)) :: cs)
        else none
      | [] => none
    else if b0 < 0xF0 then
      match rest with
      | b1 :: b2 :: rest2 =>
        let cp := (b0 - 0xE0) * 0x1000 + (b1 - 0x80) * 0x40 + (b2 - 0x80)
        if isCont b1 && isCont b2 && 0x800 ≤ cp && (cp < 0xD800 || 0xE000 ≤ cp) then
          (utf8Decode rest2).map (fun cs => cp :: cs)
        else none
      | _ => none
    else if b0 < 0xF5 then
      match rest with
      | b1 :: b2 :: b3 :: rest3 =>
        let cp := (b0 - 0xF0) * 0x40000 + (b1 - 0x80) * 0x1000 +
          (b2 - 0x80) * 0x40 + (b3 - 0x80)
        if isCont b1 && isCont b2 && isCont b3 && 0x10000 ≤ cp && cp < 0x110000 then
          (utf8Decode rest3).map (fun cs => cp :: cs)
        else none
      | _ => none
    else none

/-- Decode UTF-8 bytes into a `String` (`String::from_utf8`). -/
def utf8DecodeStr (data : Bytes) : Option String :=
  (utf8Decode data).map (fun cs => String.mk (cs.map Char.ofNat))

/-! ### Secure session construction (`src/xk.rs`)

The session holds a SOCKS5 proxy layer and a noise handshake state.
The noise library (`cyphernet::encrypt::noise`) is external: `Keyset`,
`HandshakePattern` and `NoiseState::initialize` are modelled as plain
record constructors storing exactly the fields `src/xk.rs` passes them.
Key generation (`G::generate_keypair`) is an external randomness effect,
passed in as the oracle argument `pair`. -/

/-- Link direction fixed at session creation (`netservices::LinkDirection`). -/
inductive LinkDirection where
  | Inbound : LinkDirection
  | Outbound : LinkDirection
deriving DecidableEq, Repr

/-- Outbound test on a direction (`LinkDirection::is_outbound`). -/
def LinkDirection.is_outbound : LinkDirection → Bool
  | .Inbound => false
  | .Outbound => true

/-- Initiator-side pattern of the handshake (`InitiatorPattern`); `src/xk.rs`
uses only `Xmitted`. -/
inductive InitiatorPattern where
  | Xmitted : InitiatorPattern
deriving DecidableEq, Repr

/-- Responder-side pattern of the handshake (`OneWayPattern`); `src/xk.rs`
uses only `Known`. -/
inductive OneWayPattern where
  | Known : OneWayPattern
deriving DecidableEq, Repr

/-- Handshake pattern parameterization (`noise::HandshakePattern`). -/
structure HandshakePattern where
  initiator : InitiatorPattern
  responder : OneWayPattern
deriving DecidableEq, Repr

/-- Key material handed to the noise handshake (`noise::Keyset`): local
ephemeral `e`, local static `s`, remote ephemeral `re`, remote static `rs`. -/
structure Keyset where
  e : PrivKey
  s : Option PrivKey
  re : Option PubKey
  rs : Option PubKey
deriving DecidableEq, Repr

/-- Initialized noise handshake state (`NoiseState::initialize`): the
pattern, the initiator flag, the prologue and the keyset it was given. -/
structure NoiseState where
  pattern : HandshakePattern
  initiator : Bool
  prologue : Bytes
  keyset : Keyset
deriving DecidableEq, Repr

/-- SOCKS5 negotiation parameters (`socks5::Socks5::with`). -/
structure Socks5 where
  remoteAddr : NetAddrHost
  forceProxy : Bool
deriving DecidableEq, Repr

/-- Proxy session layered under the noise handshake (`Socks5Session::with`). -/
structure Socks5Session where
  connection : TcpStream
  socks5 : Socks5
deriving DecidableEq, Repr

/-- Secure session (`NshSession<G> = NoiseSession<G, Sha256, Socks5Session<TcpStream>>`). -/
structure NshSession where
  proxy : Socks5Session
  noise : NoiseState
deriving DecidableEq, Repr

/-- Internal constructor of `src/xk.rs` (`fn session`): build the SOCKS5
layer, generate the ephemeral keypair (oracle `pair`), pick the keyset by
direction — outbound pins `rs := remote_id`, inbound leaves `rs := none` —
and initialize the noise state with the XK pattern. -/
def session (remote_addr : NetAddrHost) (remote_id : Option PubKey)
    (connection : TcpStream) (direction : LinkDirection) (signer : PrivKey)
    (force_proxy : Bool) (pair : PrivKey × PubKey) : NshSession :=
  let socks5 : Socks5 := ⟨remote_addr, force_proxy⟩
  let proxy : Socks5Session := ⟨connection, socks5⟩
  let keyset : Keyset :=
    if direction.is_outbound then
      ⟨pair.1, some signer, none, remote_id⟩
    else
      ⟨pair.1, some signer, none, none⟩
  let noise : NoiseState :=
    ⟨⟨InitiatorPattern.Xmitted, OneWayPattern.Known⟩, direction.is_outbound, [], keyset⟩
  ⟨proxy, noise⟩

/-- Internal invariant asserted inside `fn session` for the outbound branch
(`debug_assert!(remote_id.is_some())`). -/
def session_assertion (remote_id : Option PubKey) (direction : LinkDirection) : Bool :=
  !direction.is_outbound || remote_id.isSome

/-- Outbound dial (`src/xk.rs::connect_nonblocking`): open the raw TCP
connection — to the proxy when `force_proxy`, otherwise to the address
computed by `connection_addr` — then build an `Outbound` session pinned to
`remote_id`.  The TCP stack is the oracle `tcpConnect`; the external
`NetAddr::connection_addr` resolution is the oracle `connection_addr`. -/
def connect_nonblocking (tcpConnect : Nat → Except String TcpStream)
    (connection_addr : NetAddrHost → NetAddrInet → Nat)
    (remote_addr : NetAddrHost) (remote_id : PubKey) (signer : PrivKey)
    (proxy_addr : NetAddrInet) (force_proxy : Bool)
    (pair : PrivKey × PubKey) : Except String NshSession := do
  let connection ←
    if force_proxy then tcpConnect proxy_addr
    else tcpConnect (connection_addr remote_addr proxy_addr)
  Except.ok (session remote_addr (some remote_id) connection
    LinkDirection.Outbound signer force_proxy pair)

/-- Inbound acceptance (`src/xk.rs::accept`): build an `Inbound` session on
an already-connected stream, with no pinned remote identity and the proxy
disabled.  `remote_addr_of` models the external `connection.remote_addr()`. -/
def xkAccept (connection : TcpStream) (signer : PrivKey)
    (remote_addr_of : TcpStream → NetAddrHost)
    (pair : PrivKey × PubKey) : NshSession :=
  session (remote_addr_of connection) none connection
    LinkDirection.Inbound signer false pair

/-! ### Actions and transports

`reactor::Action<Accept, Transport>` with the constructors the program
emits.  A `Transport` (from `netservices`, external) wraps one session and
exposes its raw descriptor via `as_raw_fd`; it is produced by the external
fallible constructor `Transport::with_session`, an oracle below. -/

/-- Registered transport resource: its raw descriptor and its session. -/
structure Transport where
  rawFd : RawFd
  sess : NshSession
deriving DecidableEq, Repr

/-- Raw descriptor of a transport (`AsRawFd::as_raw_fd`). -/
def Transport.as_raw_fd (t : Transport) : RawFd := t.rawFd

/-- Request to the reactor runtime (`reactor::Action`), restricted to the
constructors the program uses. -/
inductive Action where
  | RegisterListener : Listener → Action
  | RegisterTransport : Transport → Action
  | UnregisterListener : ResourceId → Action
  | UnregisterTransport : ResourceId → Action
  | Send : ResourceId → Bytes → Action
deriving DecidableEq, Repr

/-! ### The command language (`crate::command`, not under `src/`)

Modelled from the spec: the repository's `command.rs` is absent from the
sources.  The spec fixes only the shapes — a recognized surface of `ECHO`
(no arguments) and a forward form carrying a hop address, a hop signing
identity and an embedded sub-command (`LocalCommand`), serialized through
its display form; the exact grammar and wire encoding are explicitly out
of scope.  `LocalCommand` is therefore its own serialization (a string),
and `Command::from_str` is an oracle argument of `input`, constrained by
the claims only through which constructor it returns. -/

/-- Modelled from the spec: a sub-command to deliver once the forward
connection is up (`LocalCommand`), carried as its serialized display form. -/
abbrev LocalCommand := String

/-- Modelled from the spec: a forward target — remote address plus expected
signing identity (`Hop`). -/
structure Hop where
  addr : NetAddrHost
  id : PubKey
deriving DecidableEq, Repr

/-- Modelled from the spec: the recognized command surface (`Command`). -/
inductive Command where
  | ECHO : Command
  | Forward : Hop → LocalCommand → Command
deriving DecidableEq, Repr

/-! ### The command processor (`src/processor.rs`) -/

/-- Delegate state (`struct Processor`): identity material, proxy
configuration and the Pending-Command Map `queue : HashMap<RawFd, LocalCommand>`. -/
structure Processor where
  cert : Cert
  signer : PrivKey
  proxy_addr : NetAddrInet
  force_proxy : Bool
  timeout : Nat
  queue : List (RawFd × LocalCommand)
deriving DecidableEq, Repr

/-- Constructor (`Processor::with`): all configuration stored, empty queue. -/
def Processor.with (cert : Cert) (signer : PrivKey) (proxy_addr : NetAddrInet)
    (force_proxy : Bool) (timeout : Nat) : Processor :=
  ⟨cert, signer, proxy_addr, force_proxy, timeout, []⟩

/-- Oracles for the external calls `Processor::input` makes: command
parsing (`Command::from_str`, repository code absent from `src/`), local
process execution (`process::Command::output`, returning captured stdout
or an error rendered as text), the outbound dial
(`Session::connect_nonblocking`, a wrapper over `src/xk.rs` living in
repository code absent from `src/`) and transport wrapping
(`Transport::with_session`). -/
structure InputEnv where
  from_str : String → Option Command
  runOutput : String → List String → Except String Bytes
  dial : NetAddrHost → Cert → List PubKey → PrivKey → NetAddrInet → Bool → Nat →
    Except String NshSession
  with_session : NshSession → LinkDirection → Except String Transport

/-- Established-client callback (`Processor::new_client`): consume the
Pending-Command Map entry for `fd`, if any, into a single `Send` of the
serialized command to the assigned identity `id`. -/
def Processor.new_client (p : Processor) (fd : RawFd) (id : ResourceId)
    (_key : PubKey) : Processor × List Action :=
  match mapLookup p.queue fd with
  | some command =>
    ({ p with queue := mapErase p.queue fd },
      [Action.Send id (strBytes command)])
  | none => (p, [])

/-- Inbound-data callback (`Processor::input`): decode the bytes as UTF-8
(`NON_UTF8_COMMAND` + unregister on failure), parse the command
(`INVALID_COMMAND` + unregister on failure), then execute `ECHO` locally or
dial the `Forward` hop, queue the forwarded command under the new
transport's descriptor and register the transport; failures are reported
as in the source, with the caller unregistered only where the source does. -/
def Processor.input (env : InputEnv) (p : Processor) (id : ResourceId)
    (data : Bytes) : Processor × List Action :=
  match utf8DecodeStr data with
  | none =>
    (p, [Action.Send id (strBytes "NON_UTF8_COMMAND"), Action.UnregisterTransport id])
  | some cmdText =>
    match env.from_str cmdText with
    | none =>
      (p, [Action.Send id (strBytes "INVALID_COMMAND"), Action.UnregisterTransport id])
    | some Command.ECHO =>
      match env.runOutput "sh" ["-c", "echo"] with
      | Except.ok output => (p, [Action.Send id output])
      | Except.error err =>
        (p, [Action.Send id (strBytes err), Action.UnregisterTransport id])
    | some (Command.Forward hop command) =>
      match env.dial hop.addr p.cert [hop.id] p.signer p.proxy_addr
          p.force_proxy p.timeout with
      | Except.error err =>
        (p, [Action.Send id (strBytes ("Failure: " ++ err))])
      | Except.ok sess =>
        match env.with_session sess LinkDirection.Outbound with
        | Except.ok transport =>
          ({ p with queue := mapInsert p.queue transport.as_raw_fd command },
            [Action.RegisterTransport transport])
        | Except.error err =>
          (p, [Action.Send id (strBytes ("Failure: " ++ err)),
            Action.UnregisterTransport id])

/-! ### The reactor handler (`src/server.rs`)

`Server<D: Delegate>` is generic over its delegate; the delegate's
callbacks are a record of state-passing functions (the `Delegate` trait's
`new_client` and `input`; `accept` is only used on the listener path,
which no claim touches). -/

/-- Delegate capability record (trait `Delegate`, the two transport-event
callbacks). -/
structure DelegateOps (δ : Type) where
  new_client : δ → RawFd → ResourceId → PubKey → δ × List Action
  input : δ → ResourceId → Bytes → δ × List Action

/-- Handler state (`struct Server`): the Pre-Identity Outbox
(`outbox : HashMap<RawFd, VecDeque<Vec<u8>>>`), the FIFO action queue and
the delegate. -/
structure Server (δ : Type) where
  outbox : List (RawFd × List Bytes)
  action_queue : List Action
  delegate : δ

/-- Constructor (`Server::with`): empty outbox, the freshly bound listener
(external `Accept::bind`, passed in already bound) queued as a single
`RegisterListener` action. -/
def Server.with {δ : Type} (listener : Listener) (delegate : δ) : Server δ :=
  ⟨[], [Action.RegisterListener listener], delegate⟩

/-- Handshake artifact delivered with `Established` (`artifact.state.pk`). -/
structure Artifact where
  pk : PubKey
deriving DecidableEq, Repr

/-- Transport lifecycle event (`netservices::SessionEvent`). -/
inductive SessionEvent where
  | Established : RawFd → Artifact → SessionEvent
  | Data : Bytes → SessionEvent
  | Terminated : String → SessionEvent

/-- Transport-event handler (`Server::handle_transport_event`):
`Established` removes the outbox entry for `fd`, appends the delegate's
`new_client` actions, then one `Send` per drained outbox payload in order;
`Data` appends the delegate's `input` actions; `Terminated` appends a
single `UnregisterTransport`. -/
def Server.handle_transport_event {δ : Type} (D : DelegateOps δ) (s : Server δ)
    (id : ResourceId) (event : SessionEvent) : Server δ :=
  match event with
  | SessionEvent.Established fd artifact =>
    let key := artifact.pk
    let queue := (mapLookup s.outbox fd).getD []
    let r := D.new_client s.delegate fd id key
    { outbox := mapErase s.outbox fd,
      action_queue := s.action_queue ++ r.2 ++ queue.map (fun msg => Action.Send id msg),
      delegate := r.1 }
  | SessionEvent.Data data =>
    let r := D.input s.delegate id data
    { s with delegate := r.1, action_queue := s.action_queue ++ r.2 }
  | SessionEvent.Terminated _ =>
    { s with action_queue := s.action_queue ++ [Action.UnregisterTransport id] }

/-- Reactor-level error delivered to `handle_error` (`reactor::Error`),
restricted to the three constructors the handler matches. -/
inductive RError where
  | TransportDisconnect : ResourceId → Transport → RError
  | Poll : String → RError
  | ListenerDisconnect : ResourceId → Listener → RError

/-- Error handler (`Server::handle_error`): transport disconnects and poll
errors are log-only; a listener disconnect appends a single
`UnregisterListener` for its identity. -/
def Server.handle_error {δ : Type} (s : Server δ) (err : RError) : Server δ :=
  match err with
  | RError.TransportDisconnect _ _ => s
  | RError.Poll _ => s
  | RError.ListenerDisconnect id _ =>
    { s with action_queue := s.action_queue ++ [Action.UnregisterListener id] }

/-- Listener handover (`Server::handover_listener`): unconditional
`panic!`, modelled as an `Except.error` carrying the panic text — the
function never yields a server state. -/
def Server.handover_listener {δ : Type} (_s : Server δ) (_id : ResourceId)
    (_listener : Listener) : Except String (Server δ) :=
  Except.error "Disconnected listener socket"

/-- Transport handover (`Server::handover_transport`): log-only, the state
is returned unchanged. -/
def Server.handover_transport {δ : Type} (s : Server δ) (_id : ResourceId)
    (_transport : Transport) : Server δ :=
  s

/-- Delegate operations of the `Processor` under a fixed oracle
environment (the `impl Delegate for Processor`). -/
def processorOps (env : InputEnv) : DelegateOps Processor :=
  ⟨Processor.new_client, Processor.input env⟩

/-! Concrete fixtures used to instantiate theorems with hypotheses. -/

/-- Concrete session value for instantiating oracles. -/
def testSession : NshSession :=
  ⟨⟨0, ⟨0, false⟩⟩,
    ⟨⟨InitiatorPattern.Xmitted, OneWayPattern.Known⟩, true, [], ⟨0, some 0, none, none⟩⟩⟩

/-- Concrete transport value with raw descriptor 7. -/
def testTransport : Transport := ⟨7, testSession⟩

/-- Concrete processor state with an empty Pending-Command Map. -/
def testProc : Processor := Processor.with 0 1 2 false 3

/-- Oracle environment where parsing yields a `Forward`, the dial succeeds
and the wrapping succeeds. -/
def envFwdOk : InputEnv :=
  ⟨fun _ => some (Command.Forward ⟨1, 2⟩ "run"),
    fun _ _ => Except.ok [],
    fun _ _ _ _ _ _ _ => Except.ok testSession,
    fun _ _ => Except.ok testTransport⟩

/-- Oracle environment where parsing yields a `Forward` and the dial fails. -/
def envFwdDialErr : InputEnv :=
  ⟨fun _ => some (Command.Forward ⟨1, 2⟩ "run"),
    fun _ _ => Except.ok [],
    fun _ _ _ _ _ _ _ => Except.error "refused",
    fun _ _ => Except.ok testTransport⟩

/-- Oracle environment where the dial succeeds and the transport wrapping
fails. -/
def envFwdWrapErr : InputEnv :=
  ⟨fun _ => some (Command.Forward ⟨1, 2⟩ "run"),
    fun _ _ => Except.ok [],
    fun _ _ _ _ _ _ _ => Except.ok testSession,
    fun _ _ => Except.error "wrap"⟩

/-- Oracle environment where no text parses as a command. -/
def envParseNone : InputEnv :=
  ⟨fun _ => none,
    fun _ _ => Except.ok [],
    fun _ _ _ _ _ _ _ => Except.ok testSession,
    fun _ _ => Except.ok testTransport⟩

/-- Oracle environment where parsing yields `ECHO` and the shell captures a
single newline. -/
def envEchoOk : InputEnv :=
  ⟨fun _ => some Command.ECHO,
    fun _ _ => Except.ok (strBytes "\n"),
    fun _ _ _ _ _ _ _ => Except.ok testSession,
    fun _ _ => Except.ok testTransport⟩

/-- Oracle environment where parsing yields `ECHO` and the local execution
fails. -/
def envEchoErr : InputEnv :=
  ⟨fun _ => some Command.ECHO,
    fun _ _ => Except.error "spawn failed",
    fun _ _ _ _ _ _ _ => Except.ok testSession,
    fun _ _ => Except.ok testTransport⟩

/-- Concrete server over a processor whose Pending-Command Map holds one
entry under descriptor 7. -/
def testServer : Server Processor :=
  ⟨[], [], { testProc with queue := [(7, "run")] }⟩

/-- Helper: UTF-8 encoding distributes over string append. -/
theorem strBytes_append (a b : String) : strBytes (a ++ b) = strBytes a ++ strBytes b := by
  simp [strBytes, String.data_append]

/-- C1: a `Forward` whose dial and wrapping succeed inserts exactly the one
Pending-Command Map entry keyed by the new transport's raw descriptor and
returns exactly one `RegisterTransport` action; `new_client` on a state
mapping that descriptor to the command removes the entry and returns
exactly one `Send` of the serialized command to the assigned identity; and
`new_client` on any descriptor with no entry returns the empty list. -/
theorem forward_success_queues_and_delivers
    (env : InputEnv) (p : Processor) (id : ResourceId) (data : Bytes)
    (cmdText : String) (hop : Hop) (command : LocalCommand)
    (sess : NshSession) (transport : Transport)
    (hdec : utf8DecodeStr data = some cmdText)
    (hparse : env.from_str cmdText = some (Command.Forward hop command))
    (hdial : env.dial hop.addr p.cert [hop.id] p.signer p.proxy_addr
      p.force_proxy p.timeout = Except.ok sess)
    (hwrap : env.with_session sess LinkDirection.Outbound = Except.ok transport) :
    Processor.input env p id data =
      ({ p with queue := mapInsert p.queue transport.as_raw_fd command },
        [Action.RegisterTransport transport]) ∧
    mapLookup (mapInsert p.queue transport.as_raw_fd command) transport.as_raw_fd
      = some command ∧
    (∀ (q : Processor) (id2 : ResourceId) (key : PubKey),
      mapLookup q.queue transport.as_raw_fd = some command →
      Processor.new_client q transport.as_raw_fd id2 key =
        ({ q with queue := mapErase q.queue transport.as_raw_fd },
          [Action.Send id2 (strBytes command)])) ∧
    (∀ (q : Processor) (fd : RawFd) (id2 : ResourceId) (key : PubKey),
      mapLookup q.queue fd = none →
      Processor.new_client q fd id2 key = (q, [])) := by
  refine ⟨?_, mapLookup_mapInsert_self _ _ _, ?_, ?_⟩
  · simp [Processor.input, hdec, hparse, hdial, hwrap]
  · intro q id2 key h
    simp [Processor.new_client, h]
  · intro q fd id2 key h
    simp [Processor.new_client, h]

/-- Witness for C1 at a concrete environment, processor, payload. -/
theorem forward_success_queues_and_delivers_witness :
    Processor.input envFwdOk testProc 5 [70] =
      ({ testProc with
          queue := mapInsert testProc.queue testTransport.as_raw_fd "run" },
        [Action.RegisterTransport testTransport]) :=
  (forward_success_queues_and_delivers envFwdOk testProc 5 [70] "F" ⟨1, 2⟩ "run"
    testSession testTransport (by decide) rfl rfl rfl).1

/-- C2: an `Established(fd, artifact)` event appends exactly the delegate's
`new_client` actions followed by one `Send` per Pre-Identity Outbox payload
stored under `fd`, in their stored order, and removes the outbox entry. -/
theorem established_orders_delegate_before_outbox {δ : Type}
    (D : DelegateOps δ) (s : Server δ) (id : ResourceId)
    (fd : RawFd) (artifact : Artifact) :
    Server.handle_transport_event D s id (SessionEvent.Established fd artifact) =
      { outbox := mapErase s.outbox fd,
        action_queue := s.action_queue ++ (D.new_client s.delegate fd id artifact.pk).2 ++
          ((mapLookup s.outbox fd).getD []).map (fun msg => Action.Send id msg),
        delegate := (D.new_client s.delegate fd id artifact.pk).1 } := rfl

/-- C3: a `Forward` whose dial fails yields exactly one `Send` to the caller
whose payload is the bytes of `"Failure: "` followed by the error text, with
the processor (so the Pending-Command Map) unchanged and no unregister; a
`Forward` whose dial succeeds but whose wrapping fails yields exactly that
`Send` followed by `UnregisterTransport` of the caller, again with the
Pending-Command Map unchanged. -/
theorem forward_failure_reports
    (env : InputEnv) (p : Processor) (id : ResourceId) (data : Bytes)
    (cmdText : String) (hop : Hop) (command : LocalCommand)
    (hdec : utf8DecodeStr data = some cmdText)
    (hparse : env.from_str cmdText = some (Command.Forward hop command)) :
    (∀ err, env.dial hop.addr p.cert [hop.id] p.signer p.proxy_addr
        p.force_proxy p.timeout = Except.error err →
      Processor.input env p id data =
        (p, [Action.Send id (strBytes "Failure: " ++ strBytes err)])) ∧
    (∀ sess err, env.dial hop.addr p.cert [hop.id] p.signer p.proxy_addr
        p.force_proxy p.timeout = Except.ok sess →
      env.with_session sess LinkDirection.Outbound = Except.error err →
      Processor.input env p id data =
        (p, [Action.Send id (strBytes "Failure: " ++ strBytes err),
          Action.UnregisterTransport id])) := by
  constructor
  · intro err hdial
    simp [Processor.input, hdec, hparse, hdial, strBytes_append]
  · intro sess err hdial hwrap
    simp [Processor.input, hdec, hparse, hdial, hwrap, strBytes_append]

/-- Witness for C3 at concrete dial-failure and wrap-failure environments. -/
theorem forward_failure_reports_witness :
    Processor.input envFwdDialErr testProc 5 [70] =
      (testProc, [Action.Send 5 (strBytes "Failure: " ++ strBytes "refused")]) ∧
    Processor.input envFwdWrapErr testProc 5 [70] =
      (testProc, [Action.Send 5 (strBytes "Failure: " ++ strBytes "wrap"),
        Action.UnregisterTransport 5]) :=
  ⟨(forward_failure_reports envFwdDialErr testProc 5 [70] "F" ⟨1, 2⟩ "run"
      (by decide) rfl).1 "refused" rfl,
    (forward_failure_reports envFwdWrapErr testProc 5 [70] "F" ⟨1, 2⟩ "run"
      (by decide) rfl).2 testSession "wrap" rfl rfl⟩

/-- C4: a payload that is not valid UTF-8 yields exactly the fixed non-text
token and an unregister of the caller, for every parsing oracle (so parsing
is never consulted); a valid-text payload that does not parse yields exactly
the distinct fixed invalid-command token and an unregister; the two tokens
differ. -/
theorem input_rejects_bad_payloads (p : Processor) (id : ResourceId) :
    (∀ (env : InputEnv) (data : Bytes), utf8DecodeStr data = none →
      Processor.input env p id data =
        (p, [Action.Send id (strBytes "NON_UTF8_COMMAND"),
          Action.UnregisterTransport id])) ∧
    (∀ (env : InputEnv) (data : Bytes) (cmdText : String),
      utf8DecodeStr data = some cmdText → env.from_str cmdText = none →
      Processor.input env p id data =
        (p, [Action.Send id (strBytes "INVALID_COMMAND"),
          Action.UnregisterTransport id])) ∧
    strBytes "NON_UTF8_COMMAND" ≠ strBytes "INVALID_COMMAND" := by
  refine ⟨?_, ?_, by decide⟩
  · intro env data hdec
    simp [Processor.input, hdec]
  · intro env data cmdText hdec hparse
    simp [Processor.input, hdec, hparse]

/-- Witness for C4 at a non-UTF-8 payload and at an unparseable text payload. -/
theorem input_rejects_bad_payloads_witness :
    Processor.input envParseNone testProc 5 [255] =
      (testProc, [Action.Send 5 (strBytes "NON_UTF8_COMMAND"),
        Action.UnregisterTransport 5]) ∧
    Processor.input envParseNone testProc 5 [88] =
      (testProc, [Action.Send 5 (strBytes "INVALID_COMMAND"),
        Action.UnregisterTransport 5]) :=
  ⟨(input_rejects_bad_payloads testProc 5).1 envParseNone [255] (by decide),
    (input_rejects_bad_payloads testProc 5).2.1 envParseNone [88] "X" (by decide) rfl⟩

/-- C5: a `Terminated(err)` event appends exactly one `UnregisterTransport`
for the resource identity, leaves the Pre-Identity Outbox and the delegate —
hence the Pending-Command Map — unchanged, so any entry inserted by a
forward whose session never reached `Established` remains in the map. -/
theorem terminated_leaves_pending_map
    (env : InputEnv) (s : Server Processor) (id : ResourceId) (err : String) :
    Server.handle_transport_event (processorOps env) s id (SessionEvent.Terminated err) =
      { s with action_queue := s.action_queue ++ [Action.UnregisterTransport id] } ∧
    (Server.handle_transport_event (processorOps env) s id
      (SessionEvent.Terminated err)).delegate.queue = s.delegate.queue ∧
    (∀ (fd : RawFd) (c : LocalCommand), mapLookup s.delegate.queue fd = some c →
      mapLookup (Server.handle_transport_event (processorOps env) s id
        (SessionEvent.Terminated err)).delegate.queue fd = some c) :=
  ⟨rfl, rfl, fun _ _ h => h⟩

/-- Witness for C5: the pending entry under descriptor 7 survives a
`Terminated` event. -/
theorem terminated_leaves_pending_map_witness :
    mapLookup (Server.handle_transport_event (processorOps envFwdOk) testServer 4
      (SessionEvent.Terminated "eof")).delegate.queue 7 = some "run" :=
  (terminated_leaves_pending_map envFwdOk testServer 4 "eof").2.2 7 "run" (by decide)

/-- C6: an `ECHO` whose local execution succeeds yields exactly one `Send`
of the captured standard output (a single newline when the shell behaves)
and no unregister; an `ECHO` whose local execution fails yields exactly the
`Send` of the error text followed by `UnregisterTransport` of the caller. -/
theorem echo_reports_output
    (env : InputEnv) (p : Processor) (id : ResourceId) (data : Bytes)
    (cmdText : String)
    (hdec : utf8DecodeStr data = some cmdText)
    (hparse : env.from_str cmdText = some Command.ECHO) :
    (∀ output, env.runOutput "sh" ["-c", "echo"] = Except.ok output →
      Processor.input env p id data = (p, [Action.Send id output])) ∧
    (env.runOutput "sh" ["-c", "echo"] = Except.ok (strBytes "\n") →
      Processor.input env p id data = (p, [Action.Send id (strBytes "\n")])) ∧
    (∀ err, env.runOutput "sh" ["-c", "echo"] = Except.error err →
      Processor.input env p id data =
        (p, [Action.Send id (strBytes err), Action.UnregisterTransport id])) := by
  refine ⟨?_, ?_, ?_⟩
  · intro output hrun
    simp [Processor.input, hdec, hparse, hrun]
  · intro hrun
    simp [Processor.input, hdec, hparse, hrun]
  · intro err hrun
    simp [Processor.input, hdec, hparse, hrun]

/-- Witness for C6 at a newline-capturing shell and at a failing shell. -/
theorem echo_reports_output_witness :
    Processor.input envEchoOk testProc 5 [88] = (testProc, [Action.Send 5 (strBytes "\n")]) ∧
    Processor.input envEchoErr testProc 5 [88] =
      (testProc, [Action.Send 5 (strBytes "spawn failed"),
        Action.UnregisterTransport 5]) :=
  ⟨(echo_reports_output envEchoOk testProc 5 [88] "X" (by decide) rfl).2.1 rfl,
    (echo_reports_output envEchoErr testProc 5 [88] "X" (by decide) rfl).2.2
      "spawn failed" rfl⟩

/-- C7: every session `connect_nonblocking` yields is outbound (initiator)
with the pinned remote identity as known remote static key, and the
outbound internal invariant on the pin holds; every session `accept`
(`xkAccept`) yields is inbound with no remote static pin; in both
directions the local static key is the signer and the ephemeral slot is the
freshly generated key of that call. -/
theorem xk_directions_and_pins
    (tcpConnect : Nat → Except String TcpStream)
    (connection_addr : NetAddrHost → NetAddrInet → Nat)
    (remote_addr : NetAddrHost) (remote_id : PubKey) (signer : PrivKey)
    (proxy_addr : NetAddrInet) (force_proxy : Bool) (pair : PrivKey × PubKey) :
    (∀ sess, connect_nonblocking tcpConnect connection_addr remote_addr remote_id
        signer proxy_addr force_proxy pair = Except.ok sess →
      sess.noise.initiator = true ∧
      sess.noise.keyset.rs = some remote_id ∧
      sess.noise.keyset.s = some signer ∧
      sess.noise.keyset.e = pair.1 ∧
      session_assertion (some remote_id) LinkDirection.Outbound = true) ∧
    (∀ (connection : TcpStream) (remote_addr_of : TcpStream → NetAddrHost),
      (xkAccept connection signer remote_addr_of pair).noise.initiator = false ∧
      (xkAccept connection signer remote_addr_of pair).noise.keyset.rs = none ∧
      (xkAccept connection signer remote_addr_of pair).noise.keyset.s = some signer ∧
      (xkAccept connection signer remote_addr_of pair).noise.keyset.e = pair.1) := by
  constructor
  · intro sess h
    have hs : ∃ connection, sess = session remote_addr (some remote_id) connection
        LinkDirection.Outbound signer force_proxy pair := by
      cases force_proxy with
      | false =>
        cases htc : tcpConnect (connection_addr remote_addr proxy_addr) with
        | error e => simp [connect_nonblocking, htc, Bind.bind, Except.bind] at h
        | ok c =>
          simp [connect_nonblocking, htc, Bind.bind, Except.bind] at h
          exact ⟨c, h.symm⟩
      | true =>
        cases htc : tcpConnect proxy_addr with
        | error e => simp [connect_nonblocking, htc, Bind.bind, Except.bind] at h
        | ok c =>
          simp [connect_nonblocking, htc, Bind.bind, Except.bind] at h
          exact ⟨c, h.symm⟩
    obtain ⟨c, rfl⟩ := hs
    simp [session, LinkDirection.is_outbound, session_assertion]
  · intro connection remote_addr_of
    simp [xkAccept, session, LinkDirection.is_outbound]

/-- Witness for C7 at a concrete successful dial. -/
theorem xk_directions_and_pins_witness :
    (session 1 (some 2) 9 LinkDirection.Outbound 3 false (5, 6)).noise.keyset.rs
      = some 2 :=
  ((xk_directions_and_pins (fun _ => Except.ok 9) (fun _ _ => 0) 1 2 3 4 false
    (5, 6)).1 (session 1 (some 2) 9 LinkDirection.Outbound 3 false (5, 6)) rfl).2.1

/-- C8: `handle_error` leaves the state unchanged on a transport disconnect
and on a poll error, and appends exactly one `UnregisterListener` for the
disconnected listener's identity on a listener disconnect. -/
theorem handle_error_cases {δ : Type} (s : Server δ) :
    (∀ (id : ResourceId) (t : Transport),
      Server.handle_error s (RError.TransportDisconnect id t) = s) ∧
    (∀ e, Server.handle_error s (RError.Poll e) = s) ∧
    (∀ (id : ResourceId) (l : Listener),
      Server.handle_error s (RError.ListenerDisconnect id l) =
        { s with action_queue := s.action_queue ++ [Action.UnregisterListener id] }) :=
  ⟨fun _ _ => rfl, fun _ => rfl, fun _ _ => rfl⟩

/-- C9: `handover_listener` aborts (the panic value) for every state,
identity and listener, never producing a server state; `handover_transport`
returns the state unchanged for every identity and transport. -/
theorem handover_cases {δ : Type} (s : Server δ) :
    (∀ (id : ResourceId) (l : Listener),
      Server.handover_listener s id l =
        (Except.error "Disconnected listener socket" : Except String (Server δ))) ∧
    (∀ (id : ResourceId) (t : Transport), Server.handover_transport s id t = s) :=
  ⟨fun _ _ => rfl, fun _ _ => rfl⟩

/-- C10: `Processor.input` always returns at least one action, and whenever
the returned list contains an `UnregisterTransport` for the calling
identity, that action is last and is immediately preceded by a `Send` to
the same identity. -/
theorem input_always_responds
    (env : InputEnv) (p : Processor) (id : ResourceId) (data : Bytes) :
    0 < (Processor.input env p id data).2.length ∧
    (Action.UnregisterTransport id ∈ (Processor.input env p id data).2 →
      ∃ pre msg, (Processor.input env p id data).2 =
        pre ++ [Action.Send id msg, Action.UnregisterTransport id]) := by
  cases hdec : utf8DecodeStr data with
  | none =>
    exact ⟨by simp [Processor.input, hdec],
      fun _ => ⟨[], strBytes "NON_UTF8_COMMAND", by simp [Processor.input, hdec]⟩⟩
  | some cmdText =>
    cases hparse : env.from_str cmdText with
    | none =>
      exact ⟨by simp [Processor.input, hdec, hparse],
        fun _ => ⟨[], strBytes "INVALID_COMMAND",
          by simp [Processor.input, hdec, hparse]⟩⟩
    | some cmd =>
      cases cmd with
      | ECHO =>
        cases hrun : env.runOutput "sh" ["-c", "echo"] with
        | error err =>
          exact ⟨by simp [Processor.input, hdec, hparse, hrun],
            fun _ => ⟨[], strBytes err, by simp [Processor.input, hdec, hparse, hrun]⟩⟩
        | ok output =>
          exact ⟨by simp [Processor.input, hdec, hparse, hrun],
            fun hmem => absurd hmem (by simp [Processor.input, hdec, hparse, hrun])⟩
      | Forward hop command =>
        cases hdial : env.dial hop.addr p.cert [hop.id] p.signer p.proxy_addr
            p.force_proxy p.timeout with
        | error err =>
          exact ⟨by simp [Processor.input, hdec, hparse, hdial],
            fun hmem => absurd hmem (by simp [Processor.input, hdec, hparse, hdial])⟩
        | ok sess =>
          cases hwrap : env.with_session sess LinkDirection.Outbound with
          | error err =>
            exact ⟨by simp [Processor.input, hdec, hparse, hdial, hwrap],
              fun _ => ⟨[], strBytes ("Failure: " ++ err),
                by simp [Processor.input, hdec, hparse, hdial, hwrap]⟩⟩
          | ok transport =>
            exact ⟨by simp [Processor.input, hdec, hparse, hdial, hwrap],
              fun hmem => absurd hmem
                (by simp [Processor.input, hdec, hparse, hdial, hwrap])⟩

/-- Witness for C10: a parse failure produces a terminal unregister preceded
by a `Send` to the same identity. -/
theorem input_always_responds_witness :
    ∃ pre msg, (Processor.input envParseNone testProc 5 [88]).2 =
      pre ++ [Action.Send 5 msg, Action.UnregisterTransport 5] :=
  (input_always_responds envParseNone testProc 5 [88]).2 (by decide)

end Nsh
